import Mathlib

/-!
Verification of the crypto RSI heatmap renderer (`src/main.py`).

RSI values are modelled as rationals (`ℚ`), coin symbols and colors as
strings, and dictionaries (which preserve insertion order in the source
language) as association lists.
-/

namespace RsiHeatmap

/-- The `RANGES` dictionary (main.py lines 9-15): the five RSI bands in
declaration order, each with its half-open `[low, high)` range. -/
def RANGES : List (String × ℚ × ℚ) :=
  [("Overbought", 70, 100),
   ("Strong", 60, 70),
   ("Neutral", 40, 60),
   ("Weak", 30, 40),
   ("Oversold", 0, 30)]

/-- The `COLORS_LABELS` dictionary (main.py lines 16-22): band fill colors. -/
def COLORS_LABELS : List (String × String) :=
  [("Oversold", "#1d8b7a"),
   ("Weak", "#144e48"),
   ("Neutral", "#0d1117"),
   ("Strong", "#681f28"),
   ("Overbought", "#c32e3b")]

/-- The `SCATTER_COLORS` dictionary (main.py lines 23-29): scatter point colors. -/
def SCATTER_COLORS : List (String × String) :=
  [("Oversold", "#1e9884"),
   ("Weak", "#165952"),
   ("Neutral", "#78797a"),
   ("Strong", "#79212c"),
   ("Overbought", "#cf2f3d")]

/-- The `TIMEFRAMES` list (main.py line 31). -/
def TIMEFRAMES : List String := ["5m", "15m", "1h", "4h", "1d"]

/-- Whether band `b = (label, low, high)` contains `v` in the half-open
sense of the guard on main.py line 36: `low <= rsi_value < high`. -/
def bandContains (v : ℚ) (b : String × ℚ × ℚ) : Bool :=
  decide (b.2.1 ≤ v) && decide (v < b.2.2)

/-- `get_color_for_rsi` (main.py lines 34-38): scan `RANGES` in declaration
order, return the scatter color of the first band whose half-open range
contains the value, `none` if no band matches. -/
def get_color_for_rsi (rsi_value : ℚ) : Option String :=
  match RANGES.find? (bandContains rsi_value) with
  | some (label, _, _) => SCATTER_COLORS.lookup label
  | none => none

/-- The label of the first matching band of the scan in `get_color_for_rsi`
(the spec's `band_for`): same traversal, projected to the band name. -/
def band_for (rsi_value : ℚ) : Option String :=
  (RANGES.find? (bandContains rsi_value)).map Prod.fst

/-- The bands of `RANGES` whose half-open range contains `v`. -/
def bandsContaining (v : ℚ) : List (String × ℚ × ℚ) :=
  RANGES.filter (bandContains v)

/-- `np.mean` over a list of rationals: the arithmetic mean of the values;
`np.mean` of an empty list is NaN (undefined), modelled as `none`. -/
def np_mean (l : List ℚ) : Option ℚ :=
  if l.isEmpty then none else some (l.sum / l.length)

/-- An RSI snapshot: the `rsi_data` dictionary from `get_RSI`, a mapping
from asset symbol to RSI value, as an ordered association list. -/
abbrev Snapshot := List (String × ℚ)

/-- `rsi_values = list(rsi_data.values())` (main.py line 55). -/
def rsi_values (rsi_data : Snapshot) : List ℚ :=
  rsi_data.map Prod.snd

/-- `rsi_symbols = list(rsi_data.keys())` (main.py line 54). -/
def rsi_symbols (rsi_data : Snapshot) : List String :=
  rsi_data.map Prod.fst

/-- `average_rsi = np.mean(rsi_values)` (main.py line 56): computed from the
current snapshot's values alone, with no branch for the empty snapshot. -/
def average_rsi (rsi_data : Snapshot) : Option ℚ :=
  np_mean (rsi_values rsi_data)

/-- The average used by the render pass, as a function of the fetched
top-volume list and the current snapshot (main.py lines 50-56): `top_vol`
does not enter the computation. -/
def plot_average (top_vol : List String) (rsi_data : Snapshot) : Option ℚ :=
  match top_vol with
  | _ => average_rsi rsi_data

/-- One scatter point of the loop on main.py lines 96-110: drawn at
x-position `i + 1`, y-position `rsi_values[i]`, colored by
`get_color_for_rsi(rsi_values[i])`, annotated with the symbol. -/
structure PlottedPoint where
  x : ℚ
  y : ℚ
  color : Option String
  label : String
deriving Repr, DecidableEq

/-- The scatter points drawn by the `for i, symbol in enumerate(rsi_symbols)`
loop (main.py lines 96-110): one labeled point per snapshot entry, in
snapshot order. -/
def plotted_points (rsi_data : Snapshot) : List PlottedPoint :=
  rsi_data.enum.map fun p =>
    { x := (p.1 : ℚ) + 1
      y := p.2.2
      color := get_color_for_rsi p.2.2
      label := p.2.1 }

/-- The increase color of the delta segment (main.py line 114). -/
def increaseColor : String := "#1f9986"

/-- The decrease color of the delta segment (main.py line 114). -/
def decreaseColor : String := "#e23343"

/-- `line_color` for the day-over-day segment (main.py lines 113-114):
green when `rsi_diff = current - old > 0`, red otherwise. -/
def delta_line_color (current old : ℚ) : String :=
  if current - old > 0 then increaseColor else decreaseColor

/-- The connecting segment for one symbol (main.py lines 111-121): drawn
only `if symbol in old_rsi_data`, from the reference value to the current
value, colored by `delta_line_color`. -/
def delta_segment (old_rsi_data : Snapshot) (symbol : String) (current : ℚ) :
    Option (ℚ × ℚ × String) :=
  match old_rsi_data.lookup symbol with
  | some old => some (old, current, delta_line_color current old)
  | none => none

/-- `update_plot` (main.py lines 67-73): if at least one timeframe box is
checked, close the current figure and re-run `plot_rsi_heatmap` with the
same `num_coins` and the clicked `label` as the timeframe; otherwise do
nothing. The result is the parameter pair of the re-run, `none` if none. -/
def update_plot (num_coins : ℕ) (dropdown_status : List Bool) (label : String) :
    Option (ℕ × String) :=
  if dropdown_status.any id then some (num_coins, label) else none

/-- The render-parameter state after a click on the timeframe selector:
the re-run's parameters if `update_plot` fires, the old state otherwise. -/
def state_after_click (st : ℕ × String) (dropdown_status : List Bool)
    (label : String) : ℕ × String :=
  match update_plot st.1 dropdown_status label with
  | some p => p
  | none => st

/-- The chart produced by a render pass with timeframe `tf`, given the
indicator source `fetch` (the external `get_RSI`, abstracted): its points
are computed from the snapshot fetched for `tf` alone. -/
def chart_points (fetch : String → Snapshot) (tf : String) : List PlottedPoint :=
  plotted_points (fetch tf)

/-- Default `time_frame` of `plot_rsi_heatmap` (main.py line 41). -/
def default_time_frame : String := "5m"

/-- Default `num_coins` of `plot_rsi_heatmap` (main.py line 41). -/
def default_num_coins : ℕ := 100

/-- The parameters of the `plot_rsi_heatmap(num_coins=100)` call in the
`__main__` block (main.py lines 201-202): `time_frame` is left at its
default. -/
def main_entry_params : ℕ × String := (100, default_time_frame)

/-- The x-interval of each band background fill,
`fill_between([0, len(rsi_symbols) + 2], ...)` (main.py line 79),
as a function of the number of plotted symbols. -/
def band_fill_span (n : ℕ) : ℚ × ℚ := (0, (n : ℚ) + 2)

/-- The x-axis limits, `ax.set_xlim(0, len(rsi_symbols) + 2)`
(main.py line 140). -/
def x_limits (n : ℕ) : ℚ × ℚ := (0, (n : ℚ) + 2)

/-- `color_map` (main.py lines 59-61): `(start, end, fill color, label)`
per band, in `RANGES` order. -/
def color_map : List (ℚ × ℚ × Option String × String) :=
  RANGES.map fun b => (b.2.1, b.2.2, COLORS_LABELS.lookup b.1, b.1)

/-- The band backgrounds drawn by the loop on main.py lines 78-79: one
fill per `color_map` entry, spanning `band_fill_span` horizontally. -/
def band_backgrounds (rsi_data : Snapshot) :
    List ((ℚ × ℚ) × ℚ × ℚ × Option String) :=
  color_map.map fun c =>
    (band_fill_span (rsi_symbols rsi_data).length, c.1, c.2.1, c.2.2.1)

/-- `b` is the first band of `RANGES`, in declaration order, whose
half-open range contains `v`: all bands declared before it miss `v`. -/
def firstMatchingBand (v : ℚ) (b : String × ℚ × ℚ) : Prop :=
  ∃ l₁ l₂, RANGES = l₁ ++ b :: l₂ ∧ bandContains v b = true ∧
    ∀ b' ∈ l₁, bandContains v b' = false

end RsiHeatmap

namespace RsiHeatmap

/-! ### Helper lemmas -/

theorem find?_of_first {α : Type*} (p : α → Bool) (l₁ l₂ : List α) (b : α)
    (hb : p b = true) (h₁ : ∀ x ∈ l₁, p x = false) :
    (l₁ ++ b :: l₂).find? p = some b := by
  induction l₁ with
  | nil => simp [List.find?_cons_of_pos, hb]
  | cons a l ih =>
      have ha : p a = false := h₁ a (by simp)
      have := ih (fun x hx => h₁ x (by simp [hx]))
      simpa [List.find?_cons, ha] using this

theorem no_band_outside (v : ℚ) (hv : v < 0 ∨ 100 ≤ v) :
    ∀ b ∈ RANGES, bandContains v b = false := by
  intro b hb
  simp only [RANGES, List.mem_cons, List.not_mem_nil, or_false] at hb
  rcases hv with hv | hv <;>
    rcases hb with rfl | rfl | rfl | rfl | rfl <;>
      simp [bandContains] <;> intro h <;> linarith

theorem find?_eq_none_outside (v : ℚ) (hv : v < 0 ∨ 100 ≤ v) :
    RANGES.find? (bandContains v) = none := by
  rw [List.find?_eq_none]
  intro b hb
  simp [no_band_outside v hv b hb]

/-! ### Claim theorems -/

/-- C1: `get_color_for_rsi` scans the five bands in declaration order
(Overbought, Strong, Neutral, Weak, Oversold) and returns the scatter color
of the first band whose half-open range `[low, high)` contains the value;
it returns `none` when no band matches, in particular for every value
outside `[0, 100)`; `band_for 70` is Overbought, and at `100` and `-1` the
result is `none`. -/
theorem get_color_for_rsi_first_band :
    (∀ (v : ℚ) (b : String × ℚ × ℚ), firstMatchingBand v b →
        get_color_for_rsi v = SCATTER_COLORS.lookup b.1 ∧
        band_for v = some b.1) ∧
    (∀ v : ℚ, (∀ b ∈ RANGES, bandContains v b = false) →
        get_color_for_rsi v = none) ∧
    (∀ v : ℚ, v < 0 ∨ 100 ≤ v → get_color_for_rsi v = none) ∧
    band_for 70 = some "Overbought" ∧
    get_color_for_rsi 70 = SCATTER_COLORS.lookup "Overbought" ∧
    get_color_for_rsi 100 = none ∧
    get_color_for_rsi (-1) = none := by
  refine ⟨?_, ?_, ?_, by decide, by decide, by decide, by decide⟩
  · rintro v b ⟨l₁, l₂, hsplit, hb, hmiss⟩
    have hfind : RANGES.find? (bandContains v) = some b := by
      rw [hsplit]; exact find?_of_first _ l₁ l₂ b hb hmiss
    obtain ⟨label, low, high⟩ := b
    constructor
    · simp [get_color_for_rsi, hfind]
    · simp [band_for, hfind]
  · intro v hmiss
    have : RANGES.find? (bandContains v) = none := by
      rw [List.find?_eq_none]; intro b hb; simp [hmiss b hb]
    simp [get_color_for_rsi, this]
  · intro v hv
    simp [get_color_for_rsi, find?_eq_none_outside v hv]

/-- Witness for C1: the first-match clause applied to the concrete band
`("Overbought", 70, 100)` at the value `85`. -/
theorem get_color_for_rsi_first_band_witness :
    get_color_for_rsi 85 = SCATTER_COLORS.lookup "Overbought" :=
  (get_color_for_rsi_first_band.1 85 ("Overbought", 70, 100)
    ⟨[], [("Strong", 60, 70), ("Neutral", 40, 60), ("Weak", 30, 40),
          ("Oversold", 0, 30)],
      by decide, by decide, by simp⟩).1

/-- C2: the five ranges of `RANGES` partition `[0, 100)`: every value in
`[0, 100)` lies in exactly one band's half-open range — no gaps, no
overlaps. -/
theorem ranges_partition (v : ℚ) (h0 : 0 ≤ v) (h1 : v < 100) :
    (bandsContaining v).length = 1 := by
  by_cases c30 : v < 30
  · have o : bandContains v ("Oversold", 0, 30) = true := by
      simp [bandContains]; exact ⟨h0, c30⟩
    have n1 : bandContains v ("Overbought", 70, 100) = false := by
      simp [bandContains]; intro h; linarith
    have n2 : bandContains v ("Strong", 60, 70) = false := by
      simp [bandContains]; intro h; linarith
    have n3 : bandContains v ("Neutral", 40, 60) = false := by
      simp [bandContains]; intro h; linarith
    have n4 : bandContains v ("Weak", 30, 40) = false := by
      simp [bandContains]; intro h; linarith
    simp [bandsContaining, RANGES, List.filter, o, n1, n2, n3, n4]
  · push_neg at c30
    by_cases c40 : v < 40
    · have o : bandContains v ("Weak", 30, 40) = true := by
        simp [bandContains]; exact ⟨c30, c40⟩
      have n1 : bandContains v ("Overbought", 70, 100) = false := by
        simp [bandContains]; intro h; linarith
      have n2 : bandContains v ("Strong", 60, 70) = false := by
        simp [bandContains]; intro h; linarith
      have n3 : bandContains v ("Neutral", 40, 60) = false := by
        simp [bandContains]; intro h; linarith
      have n5 : bandContains v ("Oversold", 0, 30) = false := by
        simp [bandContains]; intro h; linarith
      simp [bandsContaining, RANGES, List.filter, o, n1, n2, n3, n5]
    · push_neg at c40
      by_cases c60 : v < 60
      · have o : bandContains v ("Neutral", 40, 60) = true := by
          simp [bandContains]; exact ⟨c40, c60⟩
        have n1 : bandContains v ("Overbought", 70, 100) = false := by
          simp [bandContains]; intro h; linarith
        have n2 : bandContains v ("Strong", 60, 70) = false := by
          simp [bandContains]; intro h; linarith
        have n4 : bandContains v ("Weak", 30, 40) = false := by
          simp [bandContains]; intro h; linarith
        have n5 : bandContains v ("Oversold", 0, 30) = false := by
          simp [bandContains]; intro h; linarith
        simp [bandsContaining, RANGES, List.filter, o, n1, n2, n4, n5]
      · push_neg at c60
        by_cases c70 : v < 70
        · have o : bandContains v ("Strong", 60, 70) = true := by
            simp [bandContains]; exact ⟨c60, c70⟩
          have n1 : bandContains v ("Overbought", 70, 100) = false := by
            simp [bandContains]; intro h; linarith
          have n3 : bandContains v ("Neutral", 40, 60) = false := by
            simp [bandContains]; intro h; linarith
          have n4 : bandContains v ("Weak", 30, 40) = false := by
            simp [bandContains]; intro h; linarith
          have n5 : bandContains v ("Oversold", 0, 30) = false := by
            simp [bandContains]; intro h; linarith
          simp [bandsContaining, RANGES, List.filter, o, n1, n3, n4, n5]
        · push_neg at c70
          have o : bandContains v ("Overbought", 70, 100) = true := by
            simp [bandContains]; exact ⟨c70, h1⟩
          have n2 : bandContains v ("Strong", 60, 70) = false := by
            simp [bandContains]; intro h; linarith
          have n3 : bandContains v ("Neutral", 40, 60) = false := by
            simp [bandContains]; intro h; linarith
          have n4 : bandContains v ("Weak", 30, 40) = false := by
            simp [bandContains]; intro h; linarith
          have n5 : bandContains v ("Oversold", 0, 30) = false := by
            simp [bandContains]; intro h; linarith
          simp [bandsContaining, RANGES, List.filter, o, n2, n3, n4, n5]

/-- Witness for C2: the partition property at the concrete value `55`. -/
theorem ranges_partition_witness :
    (0 : ℚ) ≤ 55 ∧ (55 : ℚ) < 100 ∧ (bandsContaining 55).length = 1 :=
  ⟨by norm_num, by norm_num, ranges_partition 55 (by norm_num) (by norm_num)⟩

/-- C8: the banding function is deterministic — equal inputs give equal
outputs; it is a pure function of its argument (the embedding is
state-free, mirroring the source, which only reads immutable module
constants). -/
theorem get_color_for_rsi_deterministic (v w : ℚ) (h : v = w) :
    get_color_for_rsi v = get_color_for_rsi w := by
  rw [h]

/-- Witness for C8: determinism applied at the concrete value `50`. -/
theorem get_color_for_rsi_deterministic_witness :
    get_color_for_rsi 50 = get_color_for_rsi 50 :=
  get_color_for_rsi_deterministic 50 50 rfl

/-- C3: the displayed average RSI is the arithmetic mean of the current
snapshot's values alone — the fetched top-volume list does not enter the
computation, so a symbol absent from the snapshot contributes nothing;
for the snapshot `{BTC: 65, ETH: 45}` the average is `55`. -/
theorem average_rsi_mean :
    average_rsi [("BTC", 65), ("ETH", 45)] = some 55 ∧
    (∀ (top_vol top_vol' : List String) (rsi_data : Snapshot),
        plot_average top_vol rsi_data = plot_average top_vol' rsi_data ∧
        plot_average top_vol rsi_data = average_rsi rsi_data) ∧
    (∀ rsi_data : Snapshot, rsi_data ≠ [] →
        average_rsi rsi_data =
          some ((rsi_values rsi_data).sum / (rsi_values rsi_data).length)) := by
  refine ⟨by norm_num [average_rsi, np_mean, rsi_values], ?_, ?_⟩
  · intro top_vol top_vol' rsi_data
    exact ⟨rfl, rfl⟩
  · intro rsi_data hne
    have : (rsi_values rsi_data).isEmpty = false := by
      simp [rsi_values, List.isEmpty_iff, hne]
    simp [average_rsi, np_mean, this]

/-- Witness for C3: the mean clause applied to the two-entry snapshot. -/
theorem average_rsi_mean_witness :
    average_rsi [("BTC", 65), ("ETH", 45)] =
      some ((rsi_values [("BTC", 65), ("ETH", 45)]).sum /
        (rsi_values [("BTC", 65), ("ETH", 45)]).length) :=
  average_rsi_mean.2.2 [("BTC", 65), ("ETH", 45)] (by simp)

/-- C4: for a symbol present in both snapshots, the connecting segment is
drawn from the reference value to the current value and is colored as an
increase (green) exactly when `current - reference > 0`, as a decrease
(red) otherwise; `65` against reference `60` is an increase, `65` against
reference `70` a decrease. -/
theorem delta_segment_classification :
    (∀ (old_rsi_data : Snapshot) (symbol : String) (current old : ℚ),
        old_rsi_data.lookup symbol = some old →
        (delta_segment old_rsi_data symbol current =
            some (old, current, increaseColor) ↔ current - old > 0) ∧
        (delta_segment old_rsi_data symbol current =
            some (old, current, decreaseColor) ↔ ¬ current - old > 0)) ∧
    delta_segment [("BTC", 60)] "BTC" 65 = some (60, 65, increaseColor) ∧
    delta_segment [("BTC", 70)] "BTC" 65 = some (70, 65, decreaseColor) := by
  refine ⟨?_, by norm_num [delta_segment, List.lookup, delta_line_color],
    by norm_num [delta_segment, List.lookup, delta_line_color]⟩
  intro old_rsi_data symbol current old hlook
  have hseg : delta_segment old_rsi_data symbol current =
      some (old, current, delta_line_color current old) := by
    simp [delta_segment, hlook]
  by_cases hpos : current - old > 0
  · have hcol : delta_line_color current old = increaseColor := if_pos hpos
    rw [hseg, hcol]
    refine ⟨⟨fun _ => hpos, fun _ => rfl⟩, ⟨fun hEq => ?_, fun hn => absurd hpos hn⟩⟩
    simp [increaseColor, decreaseColor] at hEq
  · have hcol : delta_line_color current old = decreaseColor := if_neg hpos
    rw [hseg, hcol]
    refine ⟨⟨fun hEq => ?_, fun hp => absurd hp hpos⟩, ⟨fun _ => hpos, fun _ => rfl⟩⟩
    simp [increaseColor, decreaseColor] at hEq

/-- Witness for C4: the classification clause applied to the snapshot
`{BTC: 60}` with current value `65`. -/
theorem delta_segment_classification_witness :
    delta_segment [("BTC", 60)] "BTC" 65 = some (60, 65, increaseColor) :=
  ((delta_segment_classification.1 [("BTC", 60)] "BTC" 65 60 (by decide)).1).2
    (by norm_num)

/-- C5 counterexample: on the empty snapshot the code takes `np.mean` of an
empty list — an undefined mean (NaN, modelled `none`) which propagates to
the average-line step unhandled; no explicit empty-snapshot policy replaces
it with a defined value. -/
theorem plot_average_empty_propagates :
    plot_average [] ([] : Snapshot) = none := rfl

/-- C5 (amended): the render pass does not raise a division-by-zero on an
empty snapshot — the mean is simply undefined there, and only there: the
average is `none` exactly when the current snapshot is empty, and the code
passes that undefined value through with no explicit empty-case branch. -/
theorem average_rsi_empty_policy :
    average_rsi ([] : Snapshot) = none ∧
    (∀ rsi_data : Snapshot, average_rsi rsi_data = none ↔ rsi_data = []) ∧
    (∀ top_vol rsi_data, plot_average top_vol rsi_data = average_rsi rsi_data) := by
  refine ⟨rfl, ?_, fun _ _ => rfl⟩
  intro rsi_data
  constructor
  · intro h
    by_contra hne
    have : (rsi_values rsi_data).isEmpty = false := by
      simp [rsi_values, List.isEmpty_iff, hne]
    simp [average_rsi, np_mean, this] at h
  · rintro rfl
    rfl

/-- Every plotted point originates from a snapshot entry: it sits at
x-position `i + 1` for some index `i` into the snapshot, carries that
entry's value, the banding color of that value, and that entry's symbol. -/
theorem mem_plotted_points {rsi_data : Snapshot} {p : PlottedPoint}
    (hp : p ∈ plotted_points rsi_data) :
    ∃ i : ℕ, ∃ h : i < rsi_data.length,
      p = { x := (i : ℚ) + 1, y := (rsi_data.get ⟨i, h⟩).2,
            color := get_color_for_rsi (rsi_data.get ⟨i, h⟩).2,
            label := (rsi_data.get ⟨i, h⟩).1 } := by
  simp only [plotted_points] at hp
  obtain ⟨x, hx, rfl⟩ := List.mem_map.1 hp
  rw [List.mem_enum_iff_getElem?] at hx
  have hlt : x.1 < rsi_data.length := by
    by_contra hge
    push_neg at hge
    rw [List.getElem?_eq_none hge] at hx
    exact Option.noConfusion hx
  refine ⟨x.1, hlt, ?_⟩
  have hval : rsi_data[x.1] = x.2 := by
    rw [List.getElem?_eq_getElem hlt] at hx
    exact Option.some.inj hx
  simp [List.get_eq_getElem, hval]

/-- C6: the scatter loop draws exactly one labeled point per entry of the
current snapshot, in snapshot order: the `i`-th point sits at
`(i + 1, value)`, is colored by `get_color_for_rsi` on that value, and is
labeled with the symbol; a symbol absent from the snapshot labels no
plotted point. -/
theorem plotted_points_one_per_symbol :
    ∀ rsi_data : Snapshot,
      (plotted_points rsi_data).length = rsi_data.length ∧
      (∀ (i : ℕ) (h : i < rsi_data.length),
        (plotted_points rsi_data)[i]? =
          some { x := (i : ℚ) + 1, y := (rsi_data.get ⟨i, h⟩).2,
                 color := get_color_for_rsi (rsi_data.get ⟨i, h⟩).2,
                 label := (rsi_data.get ⟨i, h⟩).1 }) ∧
      (∀ sym : String, sym ∉ rsi_symbols rsi_data →
        ∀ p ∈ plotted_points rsi_data, p.label ≠ sym) := by
  intro rsi_data
  refine ⟨by simp [plotted_points], ?_, ?_⟩
  · intro i h
    simp [plotted_points, List.getElem?_eq_getElem h, List.get_eq_getElem]
  · intro sym hsym p hp
    obtain ⟨i, h, rfl⟩ := mem_plotted_points hp
    intro hlabel
    apply hsym
    rw [← hlabel]
    simp only [rsi_symbols]
    refine List.mem_map_of_mem Prod.fst ?_
    rw [List.get_eq_getElem]
    exact List.getElem_mem h

/-- Witness for C6: the indexed clause applied to the snapshot
`{BTC: 65}` at index `0`. -/
theorem plotted_points_one_per_symbol_witness :
    (plotted_points [("BTC", 65)])[0]? =
      some { x := 1, y := 65, color := get_color_for_rsi 65, label := "BTC" } := by
  have := (plotted_points_one_per_symbol [("BTC", 65)]).2.1 0 (by norm_num)
  simpa using this

/-- C7: a click on the timeframe selector with at least one box checked
re-runs the render pipeline with the same asset count and the newly
selected timeframe — the parameter state moves from the old timeframe to
the new one — and the resulting chart is computed from the snapshot
fetched for the new timeframe alone: every point of the new chart comes
from an entry of that snapshot, so no stale point survives. -/
theorem update_plot_rerenders :
    ∀ (fetch : String → Snapshot) (num_coins : ℕ) (dropdown_status : List Bool)
      (old_tf new_tf : String),
      dropdown_status.any id = true →
      update_plot num_coins dropdown_status new_tf = some (num_coins, new_tf) ∧
      state_after_click (num_coins, old_tf) dropdown_status new_tf =
        (num_coins, new_tf) ∧
      chart_points fetch new_tf = plotted_points (fetch new_tf) ∧
      (∀ p ∈ chart_points fetch new_tf,
        ∃ e ∈ fetch new_tf, p.label = e.1 ∧ p.y = e.2) := by
  intro fetch num_coins dropdown_status old_tf new_tf hany
  refine ⟨by simp [update_plot, hany],
    by simp [state_after_click, update_plot, hany], rfl, ?_⟩
  intro p hp
  obtain ⟨i, h, rfl⟩ := mem_plotted_points hp
  refine ⟨(fetch new_tf).get ⟨i, h⟩, ?_, rfl, rfl⟩
  rw [List.get_eq_getElem]
  exact List.getElem_mem h

/-- Witness for C7: a click selecting "1h" while the state shows "5m",
with the clicked box checked, for a fetch that returns one entry. -/
theorem update_plot_rerenders_witness :
    update_plot 100 [false, false, true, false, false] "1h" =
      some (100, "1h") :=
  (update_plot_rerenders (fun _ => [("BTC", 65)]) 100
    [false, false, true, false, false] "5m" "1h" (by decide)).1

/-- C9: running the program with no arguments calls the renderer with the
top 100 assets and the 5-minute timeframe: the `__main__` call passes
`num_coins = 100` and leaves `time_frame` at its default `"5m"`. -/
theorem main_entry_defaults :
    main_entry_params = (100, "5m") ∧
    main_entry_params = (default_num_coins, default_time_frame) :=
  ⟨rfl, rfl⟩

/-- C10: each render pass draws all five band backgrounds over the
x-interval `[0, n + 2]` for `n` snapshot entries — the same interval as
the x-axis limits — and every plotted point's x-position `i + 1` lies
inside that interval. -/
theorem band_backgrounds_full_span :
    ∀ rsi_data : Snapshot,
      (band_backgrounds rsi_data).length = 5 ∧
      (∀ b ∈ band_backgrounds rsi_data,
        b.1 = band_fill_span rsi_data.length) ∧
      band_fill_span rsi_data.length = x_limits rsi_data.length ∧
      (∀ p ∈ plotted_points rsi_data,
        (x_limits rsi_data.length).1 ≤ p.x ∧
          p.x ≤ (x_limits rsi_data.length).2) := by
  intro rsi_data
  refine ⟨by simp [band_backgrounds, color_map, RANGES], ?_, rfl, ?_⟩
  · intro b hb
    obtain ⟨c, _, rfl⟩ := List.mem_map.1 hb
    simp [band_fill_span, rsi_symbols]
  · intro p hp
    obtain ⟨i, h, rfl⟩ := mem_plotted_points hp
    have hi : (i : ℚ) < rsi_data.length := by exact_mod_cast h
    constructor
    · simp [x_limits]
      positivity
    · simp [x_limits]
      linarith

/-- Witness for C10: the background clause applied to the one-entry
snapshot `{BTC: 65}` at the first drawn band. -/
theorem band_backgrounds_full_span_witness :
    ((0 : ℚ), (3 : ℚ)) = band_fill_span ([("BTC", (65 : ℚ))] : Snapshot).length := by
  have := (band_backgrounds_full_span [("BTC", 65)]).2.1
    ((0, 3), 70, 100, COLORS_LABELS.lookup "Overbought")
    (by norm_num [band_backgrounds, color_map, RANGES, band_fill_span, rsi_symbols])
  simpa using this

end RsiHeatmap
